import Mathlib

/-!
# Verification of the AI voice decision-and-delivery pipeline

Shallow embedding of the content-safety, state-estimation, intervention-policy
and streaming code of the repository (src/lib/ai/guardrails.ts,
src/lib/ai/reasoningEngine.ts, src/lib/ai/scaffolding.ts, the SSE streaming
handlers of src/unnamed/part_004 and src/app/api/children/route.ts).

Text is modelled as `List Char`.  JavaScript numbers are modelled as `ℚ`.
External calls (OpenAI inference, generation, database lookups) are modelled
as explicit parameters giving their outcome; a thrown exception or timeout of
a dependency is the corresponding `Option`'s `none` / a dedicated `failure`
constructor, matching the try/catch structure of the source.
-/

/-! ## Basic text utilities -/

/-- Case-insensitive prefix test: `term` (already lower-case) is a prefix of
`s` once `s` is lowered character-wise.  Models the head of a case-insensitive
(`i`-flag) literal regex match. -/
def isPrefixCI : List Char → List Char → Bool
  | [], _ => true
  | _ :: _, [] => false
  | t :: ts, c :: cs => (c.toLower = t) && isPrefixCI ts cs

/-- Index of the first case-insensitive occurrence of `term` in `s`, if any. -/
def firstIdxCI (term : List Char) : List Char → Option Nat
  | [] => if isPrefixCI term [] then some 0 else none
  | c :: rest =>
      if isPrefixCI term (c :: rest) then some 0
      else (firstIdxCI term rest).map (· + 1)

/-- `term` occurs (case-insensitively) somewhere in `s`. -/
def containsCI (term s : List Char) : Bool := (firstIdxCI term s).isSome

/-- Case-sensitive substring test (JavaScript `String.prototype.includes`). -/
def containsSub (needle : List Char) : List Char → Bool
  | [] => needle.isPrefixOf []
  | c :: rest => needle.isPrefixOf (c :: rest) || containsSub needle rest

/-- Replace every (non-overlapping, left-to-right) case-insensitive occurrence
of `key` in `s` by `val`: the semantics of
`s.replace(new RegExp(key, "gi"), val)` for a literal `key`. -/
def replaceCI (key val : List Char) : List Char → List Char
  | [] => []
  | c :: rest =>
      if isPrefixCI key (c :: rest) then
        val ++ replaceCI key val (rest.drop (key.length - 1))
      else
        c :: replaceCI key val rest
  termination_by s => s.length
  decreasing_by
    · simp only [List.length_cons]
      have h := rest.length_drop (key.length - 1)
      omega
    · simp only [List.length_cons]; omega

/-- `s.split(" ")` of JavaScript: split on every single space character
(empty fragments are kept, `"".split(" ") = [""]`). -/
def splitWordsAux : List Char → List Char → List (List Char)
  | [], acc => [acc.reverse]
  | c :: rest, acc =>
      if c = ' ' then acc.reverse :: splitWordsAux rest []
      else splitWordsAux rest (c :: acc)

def splitWords (s : List Char) : List (List Char) := splitWordsAux s []

/-- Re-assembly of word increments with single spaces, the consumer-side
concatenation of the streamed words (`words.join(" ")`). -/
def joinWords : List (List Char) → List Char
  | [] => []
  | [w] => w
  | w :: ws => w ++ ' ' :: joinWords ws

/-- JavaScript `xs.slice(-n)`: the last `n` elements (the whole list when it
is shorter). -/
def lastN (n : Nat) (l : List α) : List α := l.drop (l.length - n)

/-- JavaScript `x || d` for an optional string-like value: `undefined`, `null`
and the empty string are falsy. -/
def jsOrL (o : Option (List Char)) (d : List Char) : List Char :=
  match o with
  | none => d
  | some [] => d
  | some s => s

/-- JavaScript `x || d` for an optional number: `undefined`, `null` and `0`
are falsy. -/
def jsOrQ (o : Option ℚ) (d : ℚ) : ℚ :=
  match o with
  | none => d
  | some x => if x = 0 then d else x

/-- JavaScript `x || d` for an optional string constant. -/
def jsOrS (o : Option String) (d : String) : String :=
  match o with
  | none => d
  | some "" => d
  | some s => s

/-- JavaScript truthiness of an optional string (`!x` is true exactly when the
field is absent or the empty string). -/
def jsFalsyOpt (o : Option String) : Bool :=
  match o with
  | none => true
  | some s => s.isEmpty

/-! ## Content Safety Gate (src/lib/ai/guardrails.ts, both variants)

The first variant exports `checkForbiddenPatterns` / `sanitizeContent` /
`guardContent`; the second exports `checkBlockedPatterns` /
`checkContentSafety` / `getSafeFallbackMessage`.  All patterns are literal
alternations with the `gi` flags, so a pattern matches a text exactly when one
of its alternatives occurs case-insensitively as a substring. -/

/-- The word `can't`. -/
def cantW : List Char := "can't".toList

/-- All alternatives of the `FORBIDDEN_PATTERNS` regex list, lower-cased. -/
def forbiddenTerms : List (List Char) :=
  ["reasoning".toList, "analysis".toList, "internal".toList, "covert".toList,
   "scaffold".toList, "intervention".toList,
   "struggle".toList, "struggling".toList, "difficulty".toList,
   "problem".toList, "issue".toList, "confused".toList,
   "assessment".toList, "evaluate".toList, "track".toList,
   "monitor".toList, "detect".toList,
   "wrong".toList, "incorrect".toList, "bad".toList, "poor".toList,
   "weak".toList, "failure".toList,
   cantW, "cannot".toList, "unable".toList, "failed".toList,
   "utterance".toList, "metadata".toList, "confidence".toList,
   "threshold".toList,
   "api".toList, "prompt".toList, "model".toList, "gpt".toList,
   "password".toList, "credit card".toList, "ssn".toList,
   "social security".toList]

/-- `checkForbiddenPatterns(content).hasForbidden`: some forbidden alternative
occurs in the content.  (`String.prototype.match` with a global regex is
stateless, unlike `RegExp.prototype.test`; the `violations` list of matched
substrings is diagnostic only and is not modelled.) -/
def hasForbiddenPatterns (content : List Char) : Bool :=
  forbiddenTerms.any fun t => containsCI t content

/-- `let's try another way` -/
def letsTryAnotherWay : List Char := "let's try another way".toList

/-- The `POSITIVE_ALTERNATIVES` substitution table, in `Object.entries`
(insertion) order. -/
def positiveAlternatives : List (List Char × List Char) :=
  [("struggling".toList, "learning".toList),
   ("wrong".toList, letsTryAnotherWay),
   ("incorrect".toList, "interesting idea".toList),
   ("problem".toList, "challenge".toList),
   ("confused".toList, "thinking carefully".toList),
   (cantW, "learning how to".toList),
   ("failed".toList, "tried".toList)]

/-- `sanitizeContent`: sequentially replace every table key (case-insensitive,
global) by its positive alternative. -/
def sanitizeContent (content : List Char) : List Char :=
  positiveAlternatives.foldl (fun s kv => replaceCI kv.1 kv.2 s) content

/-- Result of the first guardrail variant (`GuardrailResult`); the diagnostic
`violations` and `suggestion` fields are not modelled. -/
structure GuardrailResult where
  safe : Bool
  sanitizedContent : List Char
  deriving DecidableEq, Repr

/-- `guardContent`: fast path first — any forbidden pattern makes the verdict
unsafe with the deterministically sanitized text; otherwise the slow AI review
(an external call, here its outcome `review`) is returned.  `aiSafetyReview`
catches its own failures, so `review` is always a plain result. -/
def guardContent (content : List Char) (review : GuardrailResult) : GuardrailResult :=
  if hasForbiddenPatterns content then
    { safe := false, sanitizedContent := sanitizeContent content }
  else review

/-- `quickGuard`: pattern matching only. -/
def quickGuard (content : List Char) : Bool := !hasForbiddenPatterns content

/- Second guardrail variant. -/

def yourestruggling : List Char := "you're struggling".toList
def thatswrong : List Char := "that's wrong".toList
def youcant : List Char := "you can't".toList
def youshouldnt : List Char := "you shouldn't".toList

/-- The alternatives of the `BLOCKED_PATTERNS` list, lower-cased, in source
order (each source pattern has a single alternative). -/
def blockedTerms : List (List Char) :=
  ["reasoning".toList, "analysis".toList, "internal".toList, "covert".toList,
   "engine".toList, "algorithm".toList,
   yourestruggling, "you failed".toList, thatswrong, youcant, youshouldnt,
   "home address".toList, "phone number".toList, "password".toList,
   "credit card".toList, "social security".toList,
   "violence".toList, "weapon".toList, "drugs".toList, "alcohol".toList]

/-- A global (`g`-flag) regex object: the pattern together with its mutable
`lastIndex`.  The `BLOCKED_PATTERNS` regexes are module-level constants, so
their `lastIndex` persists across calls of `checkBlockedPatterns`. -/
structure RegexG where
  term : List Char
  lastIndex : Nat
  deriving DecidableEq, Repr

/-- `RegExp.prototype.test` on a `g`-flag regex: search for the pattern from
`lastIndex` on; on success return true and advance `lastIndex` past the match,
on failure return false and reset `lastIndex` to 0. -/
def testG (term s : List Char) (li : Nat) : Bool × Nat :=
  match (firstIdxCI term (s.drop li)).map (· + li) with
  | some i => (true, i + term.length)
  | none => (false, 0)

/-- The fresh module state: every blocked pattern with `lastIndex = 0`. -/
def initBlocked : List RegexG := blockedTerms.map fun t => ⟨t, 0⟩

/-- Result type of the second variant (`SafetyCheckResult`); the diagnostic
`reason` string is not modelled. -/
structure SafetyCheckResult where
  isSafe : Bool
  sanitizedContent : Option (List Char)
  deriving DecidableEq, Repr

/-- The pattern loop of `checkBlockedPatterns`: test each pattern in order,
returning unsafe on the first match (patterns after it keep their state). -/
def runBlocked (content : List Char) : List RegexG → Bool × List RegexG
  | [] => (true, [])
  | p :: ps =>
      let r := testG p.term content p.lastIndex
      if r.1 then (false, ⟨p.term, r.2⟩ :: ps)
      else
        let rest := runBlocked content ps
        (rest.1, ⟨p.term, r.2⟩ :: rest.2)

/-- `checkBlockedPatterns(content)` on the module regex state `st`. -/
def checkBlockedPatterns (st : List RegexG) (content : List Char) :
    SafetyCheckResult × List RegexG :=
  let r := runBlocked content st
  (if r.1 then { isSafe := true, sanitizedContent := some content }
   else { isSafe := false, sanitizedContent := none }, r.2)

/-- `checkContentSafety`: pattern layer first, AI review (external outcome
`review`, whose own failures are caught inside `aiSafetyReview`) only when the
pattern layer passes. -/
def checkContentSafety (st : List RegexG) (content : List Char)
    (review : SafetyCheckResult) : SafetyCheckResult × List RegexG :=
  let r := checkBlockedPatterns st content
  if !r.1.isSafe then r else (review, r.2)

/-- The five `getSafeFallbackMessage` phrases; the caller picks a random
index, modelled as the explicit parameter `i`. -/
def safeFallbacks : List (List Char) :=
  ["Let's take a moment to think!".toList,
   "What do you notice?".toList,
   "I wonder what happens next?".toList,
   "Tell me what you're thinking!".toList,
   "Let's explore this together!".toList]

/-- `getSafeFallbackMessage` with the random draw exposed as an index. -/
def getSafeFallbackMessage (i : Nat) : List Char := safeFallbacks.getD (i % 5) []

/-! ## State Estimator and Intervention Policy (src/lib/ai/reasoningEngine.ts) -/

/-- `ChildState.emotionalState`, the four-value union type of the source. -/
inductive EmotionalState where
  | engaged
  | confused
  | frustrated
  | excited
  deriving DecidableEq, Repr

/-- `ChildState` of reasoningEngine.ts.  Timestamps are milliseconds. -/
structure ChildState where
  vocabularyLevel : String
  recentVocabulary : List (List Char)
  pauseDurations : List ℚ
  engagementScore : ℚ
  hesitationCount : Nat
  lastUtteranceTime : ℚ
  emotionalState : EmotionalState
  deriving DecidableEq, Repr

/-- `ReasoningAnalysis` of reasoningEngine.ts. -/
structure ReasoningAnalysis where
  vocabularyUsed : List (List Char)
  newWords : List (List Char)
  complexityLevel : String
  hesitationDetected : Bool
  pauseDuration : ℚ
  engagementIndicators : List String
  strugglingIndicators : List String
  emotionalTone : String
  shouldIntervene : Bool
  interventionReason : Option String
  suggestedNudge : Option (List Char)
  confidenceScore : ℚ
  deriving DecidableEq, Repr

/-- What `JSON.parse` of a successful inference response yields: a JSON object
whose fields may each be absent. -/
structure RawAnalysis where
  vocabularyUsed : Option (List (List Char))
  newWords : Option (List (List Char))
  complexityLevel : Option String
  hesitationDetected : Option Bool
  pauseDuration : Option ℚ
  engagementIndicators : Option (List String)
  strugglingIndicators : Option (List String)
  emotionalTone : Option String
  shouldIntervene : Option Bool
  interventionReason : Option String
  suggestedNudge : Option (List Char)
  confidenceScore : Option ℚ
  deriving DecidableEq, Repr

/-- The raw object with every field absent: `JSON.parse("{}")`, as produced
when the dependency answers with empty content. -/
def emptyRaw : RawAnalysis :=
  { vocabularyUsed := none, newWords := none, complexityLevel := none,
    hesitationDetected := none, pauseDuration := none,
    engagementIndicators := none, strugglingIndicators := none,
    emotionalTone := none, shouldIntervene := none, interventionReason := none,
    suggestedNudge := none, confidenceScore := none }

/-- Outcome of the inference call inside `analyzeUtterance`'s try block:
`failure` covers a thrown exception, a timeout, and unparseable response
content (`JSON.parse` throwing) — everything that lands in the catch block.
`success raw` is a parsed JSON object. -/
inductive InferenceOutcome where
  | failure
  | success (raw : RawAnalysis)
  deriving DecidableEq, Repr

/-- `analyzeUtterance`, as a function of the inference outcome.  The utterance
and child state only shape the prompt of the external call and do not affect
the result mapping.  The catch block makes the function total: no exception
propagates to the caller. -/
def analyzeUtterance (o : InferenceOutcome) : ReasoningAnalysis :=
  match o with
  | .failure =>
      { vocabularyUsed := [], newWords := [], complexityLevel := "simple",
        hesitationDetected := false, pauseDuration := 0,
        engagementIndicators := [], strugglingIndicators := [],
        emotionalTone := "neutral", shouldIntervene := false,
        interventionReason := none, suggestedNudge := none,
        confidenceScore := 0 }
  | .success raw =>
      { vocabularyUsed := raw.vocabularyUsed.getD [],
        newWords := raw.newWords.getD [],
        complexityLevel := jsOrS raw.complexityLevel "simple",
        hesitationDetected := raw.hesitationDetected.getD false,
        pauseDuration := jsOrQ raw.pauseDuration 0,
        engagementIndicators := raw.engagementIndicators.getD [],
        strugglingIndicators := raw.strugglingIndicators.getD [],
        emotionalTone := jsOrS raw.emotionalTone "neutral",
        shouldIntervene := raw.shouldIntervene.getD false,
        interventionReason := raw.interventionReason,
        suggestedNudge := raw.suggestedNudge,
        confidenceScore := jsOrQ raw.confidenceScore (1/2) }

/-- The per-emotional-state silence thresholds (seconds) of
`detectSilenceIntervention`.  The source's `|| 10` fallback is unreachable:
`emotionalState` is the four-value union. -/
def silenceThreshold : EmotionalState → ℚ
  | .engaged => 12
  | .confused => 8
  | .frustrated => 5
  | .excited => 15

/-- Result record of `detectSilenceIntervention`. -/
structure SilenceCheck where
  needsIntervention : Bool
  silenceDuration : ℚ
  deriving DecidableEq, Repr

/-- `detectSilenceIntervention(lastUtteranceTime, childState)` at current time
`now` (milliseconds). -/
def detectSilenceIntervention (now : ℚ) (st : ChildState) : SilenceCheck :=
  let silenceDuration := (now - st.lastUtteranceTime) / 1000
  { needsIntervention := decide (silenceThreshold st.emotionalState ≤ silenceDuration),
    silenceDuration := silenceDuration }

/-- The `emotionalMapping` record of `updateChildState`: unmapped tones keep
the current emotional state (`|| currentState.emotionalState`). -/
def emotionalMapping (tone : String) (cur : EmotionalState) : EmotionalState :=
  if tone = "excited" then .excited
  else if tone = "frustrated" then .frustrated
  else if tone = "confused" then .confused
  else if tone = "neutral" then .engaged
  else cur

/-- `updateChildState(currentState, analysis)`; `now` is the `new Date()`
timestamp it writes. -/
def updateChildState (currentState : ChildState) (analysis : ReasoningAnalysis)
    (now : ℚ) : ChildState :=
  let updatedVocab := lastN 50 (currentState.recentVocabulary ++ analysis.newWords)
  let engagementDelta : ℚ :=
    (if analysis.engagementIndicators.length > 0 then 5 else 0) +
    (if analysis.strugglingIndicators.length > 0 then -3 else 0) +
    (if analysis.hesitationDetected then -2 else 0)
  let newEngagementScore :=
    max 0 (min 100 (currentState.engagementScore + engagementDelta))
  { vocabularyLevel := currentState.vocabularyLevel,
    recentVocabulary := updatedVocab,
    pauseDurations := lastN 10 (currentState.pauseDurations ++ [analysis.pauseDuration]),
    engagementScore := newEngagementScore,
    hesitationCount := currentState.hesitationCount +
      (if analysis.hesitationDetected then 1 else 0),
    lastUtteranceTime := now,
    emotionalState := emotionalMapping analysis.emotionalTone currentState.emotionalState }

/-- Repeated application of `updateChildState` with an arbitrary stream of
analyses (index `n` applied last), all at time `now`. -/
def iterUpdate (st : ChildState) (as : Nat → ReasoningAnalysis) (now : ℚ) :
    Nat → ChildState
  | 0 => st
  | n + 1 => updateChildState (iterUpdate st as now n) (as n) now

/-- `ScaffoldingDecision.action` of reasoningEngine.ts. -/
inductive ScaffoldAction where
  | speak
  | observe
  | encourage
  deriving DecidableEq, Repr

/-- `ScaffoldingDecision` of reasoningEngine.ts; the internal-only free-text
`reasoning` field is not modelled.  `delay` is milliseconds. -/
structure ScaffoldingDecision where
  action : ScaffoldAction
  message : Option (List Char)
  delay : ℚ
  deriving DecidableEq, Repr

/-- `decideScaffolding(analysis, childState, context)`: pure given the
analysis and state (the context only feeds prompt text). -/
def decideScaffolding (analysis : ReasoningAnalysis) (childState : ChildState) :
    ScaffoldingDecision :=
  if !analysis.shouldIntervene || decide (analysis.confidenceScore < 7/10) then
    { action := .observe, message := none, delay := 0 }
  else if childState.emotionalState = .frustrated then
    { action := .encourage,
      message := some (jsOrL analysis.suggestedNudge
        ("You're doing great! Let's think together.".toList)),
      delay := 3000 }
  else if analysis.strugglingIndicators.length > 2 then
    { action := .speak,
      message := some (jsOrL analysis.suggestedNudge
        ("What do you notice? Tell me more!".toList)),
      delay := 5000 }
  else
    { action := .speak,
      message := some (jsOrL analysis.suggestedNudge
        ("I wonder what you're thinking?".toList)),
      delay := 6000 }

/-! ## Anticipatory nudges (src/lib/ai/scaffolding.ts, both variants) -/

/-- `ReasoningOutput` of the second reasoningEngine variant (the module
scaffolding.ts imports; only the fields its callers read are declared).  Its
`confidenceScore` is on the 0–100 scale (`shouldProvidNudge` compares it with
60 and prints it as a percentage); `emotionalState` includes `"confident"`. -/
structure ReasoningOutput where
  shouldIntervene : Bool
  confidenceScore : ℚ
  emotionalState : String
  interventionReason : Option String
  deriving DecidableEq, Repr

/-- Modelled from the spec: `analyzeChildState`, the State-Estimator entry
point of the second reasoningEngine variant.  scaffolding.ts imports it but
its defining module is not among the sources.  Per spec section 4.2 it runs the
probabilistic inference step (outcome `inferred`) and then applies the
deterministic override: when silence since the last utterance reaches the
per-emotional-state threshold — the thresholds of `detectSilenceIntervention`
in src — it forces `shouldIntervene = true` with reason `prolonged_silence`,
regardless of the probabilistic result. -/
def analyzeChildState (inferred : ReasoningOutput) (now : ℚ) (st : ChildState) :
    ReasoningOutput :=
  if (detectSilenceIntervention now st).needsIntervention then
    { inferred with shouldIntervene := true,
                    interventionReason := some "prolonged_silence" }
  else inferred

/-- `ScaffoldingDecision` of scaffolding.ts (a different shape from the
reasoningEngine one); the internal-only `reasoning` string is not modelled. -/
structure NudgeDecision where
  shouldSpeak : Bool
  message : Option (List Char)
  delay : Option ℚ
  deriving DecidableEq, Repr

/-- `calculateDelay(reasoning)`, with the `Math.random()` draw exposed as
`rand`: base delay per emotional state, ±1 s jitter, clamped to 2–10 s. -/
def calculateDelay (reasoning : ReasoningOutput) (rand : ℚ) : ℚ :=
  let base : ℚ :=
    if reasoning.emotionalState = "confused" then 3000
    else if reasoning.emotionalState = "frustrated" then 2000
    else if reasoning.emotionalState = "confident" then 8000
    else 5000
  let delay := base + (rand * 2000 - 1000)
  max 2000 (min delay 10000)

/-- `detectStruggles(utterances)`. -/
def detectStruggles (utterances : List (List Char)) : List String :=
  match utterances with
  | [] => ["no_recent_utterances"]
  | _ :: _ =>
      let lastUtterance := utterances.getLastD []
      let hes :=
        if containsSub ("um".toList) lastUtterance ||
           containsSub ("uh".toList) lastUtterance
        then ["hesitation_markers"] else ([] : List String)
      let minimal :=
        if (splitWords lastUtterance).length < 3
        then ["minimal_response"] else ([] : List String)
      let rep :=
        if utterances.length ≥ 2 ∧ lastUtterance = utterances.dropLast.getLastD []
        then ["repetitive_language"] else ([] : List String)
      hes ++ minimal ++ rep

/-- `calculateEngagement(utterances, lastSpeechTimestamp)` at current time
`now` (both timestamps in milliseconds). -/
def calculateEngagement (utterances : List (List Char))
    (lastSpeechTimestamp now : ℚ) : ℚ :=
  let score : ℚ := 5
  let score := score + (if utterances.length > 0 then 2 else 0)
  let score := score +
    (if utterances.length ≥ 3 then
      (let avgLength : ℚ :=
        ((lastN 3 utterances).map fun u => ((splitWords u).length : ℚ)).sum / 3
       if avgLength > 5 then 2 else 0)
     else 0)
  let score := score - (if now - lastSpeechTimestamp > 15000 then 3 else 0)
  let score := score - ((detectStruggles utterances).length : ℚ)
  max 0 (min 10 score)

/-- `shouldDeliverNudge(recentNudgeCount, timeSinceLastNudge, childEngagement)`,
the rate limiter. -/
def shouldDeliverNudge (recentNudgeCount : Nat)
    (timeSinceLastNudge childEngagement : ℚ) : Bool :=
  if recentNudgeCount > 3 then false
  else if timeSinceLastNudge < 20000 then false
  else if childEngagement > 80 then false
  else true

/-- `shouldProvidNudge(childState, currentUtterance)` as a function of the
outcomes of its two fallible external calls — `reasoningO` for
`analyzeChildState` and `nudgeO` for `generateNudge`, `none` meaning the call
threw (caught by the outer catch, which answers `shouldSpeak: false`) — and of
the slow-review outcome `review`, the fallback random index, the delay jitter
draw, and the module regex state `rst` that `checkContentSafety` threads
through `checkBlockedPatterns`.  The child state and utterance themselves only
feed the external calls. -/
def shouldProvidNudge (reasoningO : Option ReasoningOutput)
    (nudgeO : Option (List Char)) (review : SafetyCheckResult)
    (fallbackIdx : Nat) (rand : ℚ) (rst : List RegexG) :
    NudgeDecision × List RegexG :=
  match reasoningO with
  | none => ({ shouldSpeak := false, message := none, delay := none }, rst)
  | some reasoning =>
      if !reasoning.shouldIntervene then
        ({ shouldSpeak := false, message := none, delay := none }, rst)
      else if decide (reasoning.confidenceScore < 60) then
        ({ shouldSpeak := false, message := none, delay := none }, rst)
      else
        match nudgeO with
        | none => ({ shouldSpeak := false, message := none, delay := none }, rst)
        | some nudge =>
            let sc := checkContentSafety rst nudge review
            if !sc.1.isSafe then
              ({ shouldSpeak := true,
                 message := some (getSafeFallbackMessage fallbackIdx),
                 delay := some (calculateDelay reasoning rand) }, sc.2)
            else
              ({ shouldSpeak := true,
                 message := some (jsOrL sc.1.sanitizedContent nudge),
                 delay := some (calculateDelay reasoning rand) }, sc.2)

/-! ## SSE streaming endpoints

Two handlers exist: the one of src/unnamed/part_004 (`POST /api/ai/stream`,
using `analyzeUtterance` / `decideScaffolding` / `guardContent`) and the one
of src/app/api/children/route.ts (using `shouldProvidNudge`).  Database rows
and the outcomes of external calls are explicit parameters; persistence writes
are recorded as effects (the collaborator is assumed to succeed). -/

/-- A whitespace character of the `\s` regex class (the common ASCII ones). -/
def isWsChar (c : Char) : Bool :=
  c = ' ' || c = '\t' || c = '\n' || c = '\r'

/-- JavaScript `s.split(/\s+/)`: split on maximal whitespace runs (a leading
run yields a leading empty fragment). -/
def splitWsAux : List Char → List Char → List (List Char)
  | [], acc => [acc.reverse]
  | c :: rest, acc =>
      if isWsChar c then acc.reverse :: splitWsAux (rest.dropWhile isWsChar) []
      else splitWsAux rest (c :: acc)
  termination_by s => s.length
  decreasing_by
    · simp only [List.length_cons]
      have h := (List.dropWhile_sublist (l := rest) isWsChar).length_le
      omega
    · simp only [List.length_cons]; omega

def splitWs (s : List Char) : List (List Char) := splitWsAux s []

/-- `Array.from(new Set(...))`: deduplication keeping first occurrences. -/
def dedupFirstAux (seen : List (List Char)) : List (List Char) → List (List Char)
  | [] => []
  | w :: ws =>
      if seen.contains w then dedupFirstAux seen ws
      else w :: dedupFirstAux (w :: seen) ws

def dedupFirst (l : List (List Char)) : List (List Char) := dedupFirstAux [] l

/-- `extractVocabulary(utterances)` of part_004: join, lower-case, split on
whitespace, dedupe, keep words longer than 3 characters, first 50. -/
def extractVocabulary (utterances : List (List Char)) : List (List Char) :=
  let allWords := splitWs ((joinWords utterances).map Char.toLower)
  let uniqueWords := dedupFirst allWords
  (uniqueWords.filter fun w => w.length > 3).take 50

/-- The request body of both streaming endpoints (`StreamRequest`): the
identifier fields may be absent. -/
structure StreamRequest where
  sessionId : Option String
  childId : Option String
  utterance : List Char
  parentOptIn : Bool
  deriving DecidableEq, Repr

/-- A `Child` database row (the fields the handlers read). -/
structure ChildRec where
  age : Nat
  vocabularyLevel : String
  aiVoiceEnabled : Bool
  deriving DecidableEq, Repr

/-- An `Utterance` database row (the fields the handlers read). -/
structure UtterRec where
  speaker : String
  text : List Char
  timestamp : ℚ
  deriving DecidableEq, Repr

/-- A `Session` row with its last ten utterances, newest first (the shape both
handlers query). -/
structure SessionRec where
  scenario : String
  utterances : List UtterRec
  deriving DecidableEq, Repr

/-- The database as seen by part_004: lookups by id.  A `none` id (absent
request field) or a missing row both make the handler throw into its catch
block. -/
structure Db004 where
  childById : String → Option ChildRec
  sessionById : String → Option SessionRec

/-- Outcomes of part_004's external calls: the inference outcome for
`analyzeUtterance`, the slow-review outcome for `guardContent`, and the text
`generateAIResponse` would produce. -/
structure Oracles004 where
  analysisOutcome : InferenceOutcome
  review : GuardrailResult
  genResponse : List Char

/-- An SSE event of part_004's word-by-word stream (`end` is written `done`). -/
inductive SSEEvent where
  | start
  | word (content : List Char) (index : Nat)
  | done
  deriving DecidableEq, Repr

/-- The event sequence part_004 streams for an approved message. -/
def streamEventsOf (msg : List Char) : List SSEEvent :=
  SSEEvent.start :: ((splitWords msg).enum.map fun p => SSEEvent.word p.2 p.1)
    ++ [SSEEvent.done]

/-- The word payloads of an event list, in emission order. -/
def streamedWords (events : List SSEEvent) : List (List Char) :=
  events.filterMap fun e =>
    match e with
    | .word w _ => some w
    | _ => none

/-- The response of part_004's handler. -/
inductive Response004 where
  | silentNoOptIn
  | silentObserve
  | stream (events : List SSEEvent)
  | error500
  deriving DecidableEq, Repr

/-- Which side effects a part_004 request performed. -/
structure Effects004 where
  analysisCalled : Bool
  genCalled : Bool
  childUtterSaved : Bool
  aiUtterSaved : Option (List Char)
  deriving DecidableEq, Repr

def noEffects004 : Effects004 :=
  { analysisCalled := false, genCalled := false, childUtterSaved := false,
    aiUtterSaved := none }

/-- JavaScript truthiness of an optional text (`!x`). -/
def jsFalsyL (o : Option (List Char)) : Bool :=
  match o with
  | none => true
  | some [] => true
  | some (_ :: _) => false

/-- The POST handler of part_004.  Control flow of the source: opt-in check;
child and session lookups (a missing id or row throws, caught as a 500
response); save the child utterance; build the child state; covert analysis;
state update; scaffolding decision; observe short-circuits to silence;
otherwise guard the message, save it and stream it. -/
def post004 (req : StreamRequest) (db : Db004) (o : Oracles004) (now : ℚ) :
    Response004 × Effects004 :=
  if !req.parentOptIn then (.silentNoOptIn, noEffects004)
  else
    match req.childId.bind db.childById with
    | none => (.error500, noEffects004)
    | some child =>
        match req.sessionId.bind db.sessionById with
        | none => (.error500, noEffects004)
        | some session =>
            let previousUtterances := session.utterances.map (·.text)
            let childState : ChildState :=
              { vocabularyLevel := child.vocabularyLevel,
                recentVocabulary := extractVocabulary previousUtterances,
                pauseDurations := [],
                engagementScore := 70,
                hesitationCount := 0,
                lastUtteranceTime := now,
                emotionalState := .engaged }
            let analysis := analyzeUtterance o.analysisOutcome
            let updatedState := updateChildState childState analysis now
            let scaffolding := decideScaffolding analysis updatedState
            if scaffolding.action = .observe then
              (.silentObserve,
               { analysisCalled := true, genCalled := false,
                 childUtterSaved := true, aiUtterSaved := none })
            else
              let aiResponse0 := jsOrL scaffolding.message o.genResponse
              let guardResult := guardContent aiResponse0 o.review
              let aiResponse :=
                if !guardResult.safe then guardResult.sanitizedContent
                else aiResponse0
              (.stream (streamEventsOf aiResponse),
               { analysisCalled := true,
                 genCalled := jsFalsyL scaffolding.message,
                 childUtterSaved := true, aiUtterSaved := some aiResponse })

/-- The child-state shape built by route.ts (the `ChildState` of the second
reasoningEngine variant). -/
structure ChildStateR where
  vocabularyLevel : String
  recentUtterances : List (List Char)
  hesitationCount : Nat
  engagementScore : ℚ
  lastSpeechTimestamp : ℚ
  detectedStruggles : List String
  deriving DecidableEq, Repr

/-- A child row together with the (at most one) session matching the
requested session id, as route.ts's `include` query returns it. -/
structure ChildWithSessions where
  child : ChildRec
  sessionHit : Option SessionRec

/-- The database as seen by route.ts. -/
structure DbR where
  childById : String → Option ChildWithSessions

/-- Outcomes of the external calls of route.ts's pipeline (threaded into
`shouldProvidNudge`), plus the module regex state of the blocked patterns. -/
structure OraclesR where
  reasoningOutcome : Option ReasoningOutput
  nudgeOutcome : Option (List Char)
  review : SafetyCheckResult
  fallbackIdx : Nat
  rand : ℚ
  regexState : List RegexG

/-- The `{ word, isLast }` events route.ts streams for a message. -/
def routeEventsOf (msg : List Char) : List (List Char × Bool) :=
  let ws := splitWords msg
  ws.enum.map fun p => (p.2, decide (p.1 = ws.length - 1))

/-- The response of route.ts's streaming POST handler. -/
inductive ResponseR where
  | badRequest
  | childNotFound
  | sessionNotFound
  | silent
  | stream (events : List (List Char × Bool))
  | error500
  deriving DecidableEq, Repr

/-- Which side effects a route.ts request performed. -/
structure EffectsR where
  inferenceCalled : Bool
  childUtterSaved : Bool
  aiUtterSaved : Option (List Char)
  deriving DecidableEq, Repr

def noEffectsR : EffectsR :=
  { inferenceCalled := false, childUtterSaved := false, aiUtterSaved := none }

/-- The streaming POST handler of route.ts.  Control flow of the source:
validate `sessionId`/`childId` (falsy fields are rejected with a 400); child
and session lookups (404s); parent opt-in AND per-child `aiVoiceEnabled`
check (silent); save the child utterance if non-empty; build the child state;
`shouldProvidNudge`; silent unless it speaks with a message; save and stream
the message. -/
def postRoute (req : StreamRequest) (db : DbR) (o : OraclesR) (now : ℚ) :
    ResponseR × EffectsR :=
  if jsFalsyOpt req.sessionId || jsFalsyOpt req.childId then
    (.badRequest, noEffectsR)
  else
    match db.childById (req.childId.getD "") with
    | none => (.childNotFound, noEffectsR)
    | some cw =>
        match cw.sessionHit with
        | none => (.sessionNotFound, noEffectsR)
        | some sess =>
            if !req.parentOptIn || !cw.child.aiVoiceEnabled then
              (.silent, noEffectsR)
            else
              let childSaved := !(req.utterance.isEmpty)
              let recentUtterances :=
                ((sess.utterances.filter fun u => u.speaker == "child").map
                  (·.text)).reverse
              let lastSpeechTimestamp :=
                match sess.utterances.find? fun u => u.speaker == "child" with
                | some u => u.timestamp
                | none => now
              let _childState : ChildStateR :=
                { vocabularyLevel := cw.child.vocabularyLevel,
                  recentUtterances := recentUtterances,
                  hesitationCount := (recentUtterances.filter fun u =>
                    containsSub ("um".toList) u ||
                    containsSub ("uh".toList) u).length,
                  engagementScore :=
                    calculateEngagement recentUtterances lastSpeechTimestamp now,
                  lastSpeechTimestamp := lastSpeechTimestamp,
                  detectedStruggles := detectStruggles recentUtterances }
              let dcn := shouldProvidNudge o.reasoningOutcome o.nudgeOutcome
                o.review o.fallbackIdx o.rand o.regexState
              if !dcn.1.shouldSpeak || jsFalsyL dcn.1.message then
                (.silent,
                 { inferenceCalled := true, childUtterSaved := childSaved,
                   aiUtterSaved := none })
              else
                let msg := dcn.1.message.getD []
                (.stream (routeEventsOf msg),
                 { inferenceCalled := true, childUtterSaved := childSaved,
                   aiUtterSaved := some msg })

/-! ## Concrete sample inputs used by witnesses and counterexamples -/

/-- A slow-review outcome that approves content. -/
def approveReview : GuardrailResult := { safe := true, sanitizedContent := [] }

/-- A slow-review outcome of the second variant that approves content. -/
def approveReviewS : SafetyCheckResult := { isSafe := true, sanitizedContent := none }

/-- A child whose parent has NOT enabled the per-child AI voice flag. -/
def childVoiceOff : ChildRec :=
  { age := 6, vocabularyLevel := "beginner", aiVoiceEnabled := false }

/-- A session with no prior utterances. -/
def emptySession : SessionRec := { scenario := "story_exploration", utterances := [] }

/-- A part_004 database holding `childVoiceOff` under id c1 and
`emptySession` under id s1. -/
def dbChildC1 : Db004 :=
  { childById := fun i => if i = "c1" then some childVoiceOff else none,
    sessionById := fun i => if i = "s1" then some emptySession else none }

/-- part_004 oracle outcomes: the inference call fails, the review approves. -/
def failOracles : Oracles004 :=
  { analysisOutcome := .failure, review := approveReview, genResponse := [] }

/-- A complete request with parent opt-in granted. -/
def reqOptInTrue : StreamRequest :=
  { sessionId := some "s1", childId := some "c1", utterance := "hi".toList,
    parentOptIn := true }

/-- A request without `childId`, with parent opt-in denied. -/
def reqNoChildId : StreamRequest :=
  { sessionId := some "s1", childId := none, utterance := "hi".toList,
    parentOptIn := false }

/-- A request with neither identifier and opt-in denied. -/
def reqOptOut : StreamRequest :=
  { sessionId := none, childId := none, utterance := [], parentOptIn := false }

/-- A request without `sessionId`, with opt-in granted. -/
def reqNoSessionId : StreamRequest :=
  { sessionId := none, childId := some "c1", utterance := [], parentOptIn := true }

/-- The voice-off child with the session hit, as route.ts's query shape. -/
def cwVoiceOff : ChildWithSessions :=
  { child := childVoiceOff, sessionHit := some emptySession }

/-- A route.ts database resolving every id to `cwVoiceOff`. -/
def dbRVoiceOff : DbR := { childById := fun _ => some cwVoiceOff }

/-- route.ts oracle outcomes in which the reasoning call throws. -/
def idleOraclesR : OraclesR :=
  { reasoningOutcome := none, nudgeOutcome := none, review := approveReviewS,
    fallbackIdx := 0, rand := 0, regexState := initBlocked }

/-- A reasoning outcome at 65 of 100 confidence (0.65 once normalized to the
0-1 scale) recommending intervention, state confident. -/
def confidentRo : ReasoningOutput :=
  { shouldIntervene := true, confidenceScore := 65,
    emotionalState := "confident", interventionReason := none }

/-- The nudge text used by the C4 counterexample. -/
def noticeNudge : List Char := "What do you notice?".toList

/-- A review outcome approving `noticeNudge` unchanged. -/
def approveNudgeReview : SafetyCheckResult :=
  { isSafe := true, sanitizedContent := some noticeNudge }

/-- An analysis recommending intervention at confidence 0.5 (below 0.7). -/
def lowConfAnalysis : ReasoningAnalysis :=
  { vocabularyUsed := [], newWords := [], complexityLevel := "simple",
    hesitationDetected := false, pauseDuration := 0,
    engagementIndicators := [], strugglingIndicators := [],
    emotionalTone := "neutral", shouldIntervene := true,
    interventionReason := none, suggestedNudge := none, confidenceScore := 1/2 }

/-- A reasoning outcome recommending intervention at confidence 30 of 100. -/
def lowConfRo : ReasoningOutput :=
  { shouldIntervene := true, confidenceScore := 30,
    emotionalState := "engaged", interventionReason := none }

/-- A generic engaged child state with last utterance at time 0. -/
def sampleChildState : ChildState :=
  { vocabularyLevel := "beginner", recentVocabulary := [], pauseDurations := [],
    engagementScore := 70, hesitationCount := 0, lastUtteranceTime := 0,
    emotionalState := .engaged }

/-- A probabilistic outcome that recommends NO intervention. -/
def quietRo : ReasoningOutput :=
  { shouldIntervene := false, confidenceScore := 0,
    emotionalState := "engaged", interventionReason := none }

/-! ## Helper lemmas -/

theorem containsCI_cons (k : List Char) (c : Char) (s : List Char) :
    containsCI k (c :: s) = (isPrefixCI k (c :: s) || containsCI k s) := by
  unfold containsCI
  rw [firstIdxCI]
  cases h : isPrefixCI k (c :: s) with
  | true => simp [h]
  | false => cases hf : firstIdxCI k s <;> simp [h, hf]

/-- A key that occurs nowhere is not replaced. -/
theorem replaceCI_of_not_containsCI (k v : List Char) :
    ∀ s : List Char, containsCI k s = false → replaceCI k v s = s := by
  intro s
  induction s with
  | nil => intro _; simp [replaceCI]
  | cons c rest ih =>
      intro h
      rw [containsCI_cons] at h
      simp only [Bool.or_eq_false_iff] at h
      rw [replaceCI]
      simp [h.1, ih h.2]

/-- A text containing no key of a substitution table is left unchanged by the
table's sequential replacement pass. -/
theorem foldl_replace_of_not_contains :
    ∀ (tbl : List (List Char × List Char)) (s : List Char),
      (∀ kv ∈ tbl, containsCI kv.1 s = false) →
      tbl.foldl (fun s kv => replaceCI kv.1 kv.2 s) s = s := by
  intro tbl
  induction tbl with
  | nil => intro s _; rfl
  | cons kv rest ih =>
      intro s h
      have h1 := h kv (List.mem_cons_self kv rest)
      simp only [List.foldl_cons, replaceCI_of_not_containsCI kv.1 kv.2 s h1]
      exact ih s fun kv' hkv' => h kv' (List.mem_cons_of_mem kv hkv')

/-- A fresh global regex (`lastIndex = 0`) tests positively exactly when the
term occurs. -/
theorem testG_fst_zero (t s : List Char) : (testG t s 0).1 = containsCI t s := by
  unfold testG containsCI
  cases h : firstIdxCI t s with
  | none => simp [h]
  | some i => simp [h]

/-- On fresh regex state, the blocked-pattern loop reports unsafe exactly when
some blocked term occurs. -/
theorem runBlocked_fresh (content : List Char) :
    ∀ ts : List (List Char),
      (runBlocked content (ts.map fun t => RegexG.mk t 0)).1 =
        !(ts.any fun t => containsCI t content) := by
  intro ts
  induction ts with
  | nil => simp [runBlocked]
  | cons t rest ih =>
      simp only [List.map_cons, runBlocked, List.any_cons]
      have hf := testG_fst_zero t content
      by_cases h : containsCI t content = true
      · simp [hf, h]
      · simp only [Bool.not_eq_true] at h
        simp [hf, h, ih]

theorem splitWordsAux_ne_nil (s acc : List Char) : splitWordsAux s acc ≠ [] := by
  induction s generalizing acc with
  | nil => simp [splitWordsAux]
  | cons c rest ih =>
      rw [splitWordsAux]
      by_cases h : c = ' '
      · simp [h]
      · simp [h, ih]

theorem joinWords_splitWordsAux (s : List Char) :
    ∀ acc : List Char, joinWords (splitWordsAux s acc) = acc.reverse ++ s := by
  induction s with
  | nil => intro acc; simp [splitWordsAux, joinWords]
  | cons c rest ih =>
      intro acc
      rw [splitWordsAux]
      by_cases h : c = ' '
      · rw [if_pos h]
        rcases hs : splitWordsAux rest [] with _ | ⟨w, ws⟩
        · exact absurd hs (splitWordsAux_ne_nil rest [])
        · have hrest : joinWords (w :: ws) = rest := by
            have := ih []
            rw [hs] at this
            simpa using this
          have hj : joinWords (acc.reverse :: w :: ws) =
              acc.reverse ++ ' ' :: joinWords (w :: ws) := rfl
          rw [hj, hrest, h]
      · rw [if_neg h]
        rw [ih (c :: acc)]
        simp

/-- The JavaScript split-on-space / join-with-space round trip is the
identity. -/
theorem joinWords_splitWords (s : List Char) : joinWords (splitWords s) = s := by
  have := joinWords_splitWordsAux s []
  simpa [splitWords] using this

/-- The word payloads of part_004's event sequence are exactly the split
words, in order. -/
theorem streamedWords_streamEventsOf (msg : List Char) :
    streamedWords (streamEventsOf msg) = splitWords msg := by
  unfold streamedWords streamEventsOf
  simp only [List.filterMap_cons, List.filterMap_append, List.filterMap_map]
  have hc : ((fun e => match e with | SSEEvent.word w _ => some w | _ => none) ∘
      fun p : Nat × List Char => SSEEvent.word p.2 p.1) = fun p => some p.2 := rfl
  rw [hc]
  have h2 : ∀ l : List (List Char),
      List.filterMap (fun p : Nat × List Char => some p.2) l.enum = l := by
    intro l
    rw [show (fun p : Nat × List Char => some p.2) = some ∘ Prod.snd from rfl]
    rw [List.filterMap_eq_map]
    exact List.enum_map_snd l
  rw [h2]
  simp

/-! ## Claim theorems -/

/-- C1 (amended): any text containing a configured forbidden term makes the
fast path of `guardContent` return an unsafe verdict with the sanitized text
produced by the fixed substitution table, never the original text on the safe
branch; a text containing no table key passes through the sanitizer
unchanged; and `checkBlockedPatterns` returns an unsafe verdict on any text
containing a blocked term when its module regex state is fresh.  (As
originally stated — unsafe on every call — the claim fails, because the
global-flag regexes keep `lastIndex` across calls: see `c1_counterexample`.) -/
theorem c1_fast_path_sanitizes :
    (∀ content review, hasForbiddenPatterns content = true →
        (guardContent content review).safe = false ∧
        (guardContent content review).sanitizedContent = sanitizeContent content) ∧
    (∀ content, (∀ kv ∈ positiveAlternatives, containsCI kv.1 content = false) →
        sanitizeContent content = content) ∧
    (∀ content, (blockedTerms.any fun t => containsCI t content) = true →
        ((checkBlockedPatterns initBlocked content).1).isSafe = false) := by
  refine ⟨?_, ?_, ?_⟩
  · intro content review h
    unfold guardContent
    rw [if_pos h]
    exact ⟨rfl, rfl⟩
  · intro content h
    exact foldl_replace_of_not_contains positiveAlternatives content h
  · intro content h
    have hr : (runBlocked content initBlocked).1 = false := by
      rw [initBlocked, runBlocked_fresh content blockedTerms, h]
      rfl
    unfold checkBlockedPatterns
    simp [hr]

/-- Witness for C1: on `"You are struggling"` the fast path is unsafe and
sanitizes (to `"You are learning"`); `"hello there"` holds no table key and is
unchanged; fresh-state `checkBlockedPatterns` flags `"weapon time"`. -/
theorem c1_witness :
    hasForbiddenPatterns ("You are struggling".toList) = true ∧
    (guardContent ("You are struggling".toList) approveReview).safe = false ∧
    (guardContent ("You are struggling".toList) approveReview).sanitizedContent =
      sanitizeContent ("You are struggling".toList) ∧
    sanitizeContent ("hello there".toList) = "hello there".toList ∧
    ((checkBlockedPatterns initBlocked ("weapon time".toList)).1).isSafe = false := by
  refine ⟨by decide, ?_, ?_, ?_, ?_⟩
  · exact (c1_fast_path_sanitizes.1 _ approveReview (by decide)).1
  · exact (c1_fast_path_sanitizes.1 _ approveReview (by decide)).2
  · exact c1_fast_path_sanitizes.2.1 _ (by decide)
  · exact c1_fast_path_sanitizes.2.2 _ (by decide)

/-- C1 counterexample: `checkBlockedPatterns` does NOT always return an unsafe
verdict on content containing a blocked term.  Its module-level regexes carry
the `g` flag, and `RegExp.prototype.test` resumes from `lastIndex`: the first
check of `"violence"` matches (unsafe) and advances the violence-pattern's
`lastIndex` to 8, so an immediately following check of the same string finds
no match and reports it safe. -/
theorem c1_counterexample :
    containsCI ("violence".toList) ("violence".toList) = true ∧
    ((checkBlockedPatterns initBlocked ("violence".toList)).1).isSafe = false ∧
    ((checkBlockedPatterns
        (checkBlockedPatterns initBlocked ("violence".toList)).2
        ("violence".toList)).1).isSafe = true := by
  exact ⟨by decide, by decide, by decide⟩

/-- C2 (amended): the part_004 streaming handler short-circuits to a silent
response with no inference call, no generation and no persistence whenever the
parent opt-in flag is false — but it never consults the per-child AI-voice
flag (see `c2_counterexample`).  The route.ts streaming handler returns the
silent response with no inference and no persistence when either the opt-in
flag or the child's `aiVoiceEnabled` flag is false (given a well-formed
request whose child and session exist). -/
theorem c2_flag_gating :
    (∀ req db o now, req.parentOptIn = false →
        post004 req db o now = (Response004.silentNoOptIn, noEffects004)) ∧
    (∀ req db o now cw,
        jsFalsyOpt req.sessionId = false → jsFalsyOpt req.childId = false →
        db.childById (req.childId.getD "") = some cw →
        ∀ sess, cw.sessionHit = some sess →
        (req.parentOptIn = false ∨ cw.child.aiVoiceEnabled = false) →
        postRoute req db o now = (ResponseR.silent, noEffectsR)) := by
  constructor
  · intro req db o now h
    unfold post004
    rw [h]
    rfl
  · intro req db o now cw hs hc hdb sess hsess hflag
    unfold postRoute
    rw [hs, hc, hdb]
    simp only [Bool.or_self, Bool.false_eq_true, if_false]
    rw [hsess]
    rcases hflag with h | h <;> simp [h]

/-- Witness for C2: an opted-out request is answered silently with no effects
by part_004, and a request for a child with `aiVoiceEnabled = false` is
answered silently with no effects by route.ts. -/
theorem c2_witness :
    post004 reqOptOut dbChildC1 failOracles 0 =
      (Response004.silentNoOptIn, noEffects004) ∧
    postRoute reqOptInTrue dbRVoiceOff idleOraclesR 0 =
      (ResponseR.silent, noEffectsR) := by
  constructor
  · exact c2_flag_gating.1 reqOptOut dbChildC1 failOracles 0 rfl
  · exact c2_flag_gating.2 reqOptInTrue dbRVoiceOff idleOraclesR 0 cwVoiceOff
      (by decide) (by decide) rfl emptySession rfl (Or.inr rfl)

/-- C2 counterexample: in part_004, a request with `parentOptIn = true` for a
child whose `aiVoiceEnabled` flag is false still runs the covert inference
analysis (and persists the child's utterance): the claimed short-circuit on
the per-child feature flag does not exist in that handler. -/
theorem c2_counterexample :
    reqOptInTrue.parentOptIn = true ∧
    childVoiceOff.aiVoiceEnabled = false ∧
    (post004 reqOptInTrue dbChildC1 failOracles 0).2.analysisCalled = true ∧
    (post004 reqOptInTrue dbChildC1 failOracles 0).2.childUtterSaved = true := by
  exact ⟨rfl, rfl, by decide, by decide⟩

/-- C3: when the inference dependency of `analyzeUtterance` fails — the call
throws, times out, or its content does not parse, all of which land in the
catch block, modelled by `InferenceOutcome.failure` — the State Estimator
returns the safe default: `shouldIntervene = false`, `confidenceScore = 0`
(never anything higher on failure), and emotional tone `"neutral"`, which
`updateChildState`'s mapping sends to `engaged`.  The catch makes
`analyzeUtterance` total, so no exception propagates to the caller. -/
theorem c3_failure_safe_default :
    (analyzeUtterance InferenceOutcome.failure).shouldIntervene = false ∧
    (analyzeUtterance InferenceOutcome.failure).confidenceScore = 0 ∧
    (analyzeUtterance InferenceOutcome.failure).emotionalTone = "neutral" ∧
    (∀ st now,
      (updateChildState st (analyzeUtterance InferenceOutcome.failure) now).emotionalState =
        EmotionalState.engaged) := by
  refine ⟨rfl, rfl, rfl, ?_⟩
  intro st now
  rfl

/-- C4 (amended): `decideScaffolding` answers observe with zero delay whenever
`shouldIntervene` is false or the confidence (0-1 scale) is below 0.7, and
`shouldProvidNudge` answers "do not speak" whenever `shouldIntervene` is false
or its confidence — a separate 0-100 scale — is below 60.  The two thresholds
are not the same scale held everywhere: 60 of 100 is 0.6, not 0.7, and
`shouldProvidNudge` speaks at confidence 65 of 100 (see
`c4_counterexample`); its silent answer also carries no delay field rather
than delay 0. -/
theorem c4_low_confidence_observes :
    (∀ analysis childState,
        analysis.shouldIntervene = false ∨ analysis.confidenceScore < 7/10 →
        (decideScaffolding analysis childState).action = ScaffoldAction.observe ∧
        (decideScaffolding analysis childState).delay = 0) ∧
    (∀ ro nudgeO review idx rand rst,
        ro.shouldIntervene = false ∨ ro.confidenceScore < 60 →
        ((shouldProvidNudge (some ro) nudgeO review idx rand rst).1).shouldSpeak = false) := by
  constructor
  · intro analysis childState h
    have hcond : (!analysis.shouldIntervene ||
        decide (analysis.confidenceScore < 7/10)) = true := by
      rcases h with h | h
      · rw [h]; rfl
      · rw [decide_eq_true h]; simp
    unfold decideScaffolding
    rw [hcond]
    exact ⟨rfl, rfl⟩
  · intro ro nudgeO review idx rand rst h
    simp only [shouldProvidNudge]
    rcases h with h | h
    · simp [h]
    · cases hi : ro.shouldIntervene <;> simp [hi, decide_eq_true h]

/-- Witness for C4: an intervention recommendation at confidence 0.5 is
observed with zero delay by `decideScaffolding`, and one at 30 of 100 is kept
silent by `shouldProvidNudge`. -/
theorem c4_witness :
    (decideScaffolding lowConfAnalysis sampleChildState).action =
      ScaffoldAction.observe ∧
    (decideScaffolding lowConfAnalysis sampleChildState).delay = 0 ∧
    ((shouldProvidNudge (some lowConfRo) none approveReviewS 0 0
        initBlocked).1).shouldSpeak = false := by
  refine ⟨?_, ?_, ?_⟩
  · exact (c4_low_confidence_observes.1 lowConfAnalysis sampleChildState
      (Or.inr (by norm_num [lowConfAnalysis]))).1
  · exact (c4_low_confidence_observes.1 lowConfAnalysis sampleChildState
      (Or.inr (by norm_num [lowConfAnalysis]))).2
  · exact c4_low_confidence_observes.2 lowConfRo none approveReviewS 0 0
      initBlocked (Or.inr (by norm_num [lowConfRo]))

/-- C4 counterexample: at confidence 65 of 100 — 0.65 on the claimed single
0-1 scale, below the claimed 0.7 threshold — `shouldProvidNudge` decides to
SPEAK (with an 8-second delay), not to observe: the policy layers do not hold
one confidence scale with one 0.7 threshold everywhere. -/
theorem c4_counterexample :
    confidentRo.confidenceScore / 100 < 7/10 ∧
    ((shouldProvidNudge (some confidentRo) (some noticeNudge) approveNudgeReview
        0 (1/2) initBlocked).1).shouldSpeak = true := by
  constructor
  · norm_num [confidentRo]
  · decide

/-- C5: whenever silence since the last utterance exceeds the
per-emotional-state threshold — engaged 12 s, confused 8 s, frustrated 5 s,
excited 15 s, the thresholds of `detectSilenceIntervention` — the State
Estimator (`analyzeChildState`, modelled from the spec, see its doc comment)
forces `shouldIntervene = true` with reason `prolonged_silence`, regardless of
the probabilistic inference outcome `inferred`. -/
theorem c5_silence_override :
    ∀ (inferred : ReasoningOutput) (now : ℚ) (st : ChildState),
      silenceThreshold st.emotionalState < (now - st.lastUtteranceTime) / 1000 →
      (analyzeChildState inferred now st).shouldIntervene = true ∧
      (analyzeChildState inferred now st).interventionReason =
        some "prolonged_silence" ∧
      silenceThreshold EmotionalState.engaged = 12 ∧
      silenceThreshold EmotionalState.confused = 8 ∧
      silenceThreshold EmotionalState.frustrated = 5 ∧
      silenceThreshold EmotionalState.excited = 15 := by
  intro inferred now st h
  have hn : (detectSilenceIntervention now st).needsIntervention = true := by
    unfold detectSilenceIntervention
    exact decide_eq_true (le_of_lt h)
  unfold analyzeChildState
  rw [hn]
  exact ⟨rfl, rfl, rfl, rfl, rfl, rfl⟩

/-- Witness for C5: 13 seconds of silence in the engaged state (threshold
12 s) forces the intervention with reason `prolonged_silence`, although the
probabilistic outcome `quietRo` recommended none. -/
theorem c5_witness :
    silenceThreshold sampleChildState.emotionalState <
      ((13000 : ℚ) - sampleChildState.lastUtteranceTime) / 1000 ∧
    quietRo.shouldIntervene = false ∧
    (analyzeChildState quietRo 13000 sampleChildState).shouldIntervene = true ∧
    (analyzeChildState quietRo 13000 sampleChildState).interventionReason =
      some "prolonged_silence" := by
  have h : silenceThreshold sampleChildState.emotionalState <
      ((13000 : ℚ) - sampleChildState.lastUtteranceTime) / 1000 := by
    norm_num [sampleChildState, silenceThreshold]
  exact ⟨h, rfl, (c5_silence_override quietRo 13000 sampleChildState h).1,
    (c5_silence_override quietRo 13000 sampleChildState h).2.1⟩

/-- C6 (amended): the rate limiter `shouldDeliverNudge` delivers exactly when
the recent-nudge count is at most 3, at least 20 s passed since the last
nudge, and engagement is at most 80 of 100.  So it suppresses any candidate
less than 20 s after the previous intervention and any candidate at
engagement above 80 — but with three interventions already delivered it still
lets the fourth candidate through (see `c6_counterexample`); the count check
only bites from the fifth on. -/
theorem c6_rate_limiter (c : Nat) (t e : ℚ) :
    shouldDeliverNudge c t e = true ↔ (c ≤ 3 ∧ 20000 ≤ t ∧ e ≤ 80) := by
  unfold shouldDeliverNudge
  split_ifs with h1 h2 h3
  · simp only [Bool.false_eq_true, false_iff]
    intro h
    exact absurd h.1 (by omega)
  · simp only [Bool.false_eq_true, false_iff]
    intro h
    exact absurd h.2.1 (by linarith)
  · simp only [Bool.false_eq_true, false_iff]
    intro h
    exact absurd h.2.2 (by linarith)
  · simp only [true_iff]
    exact ⟨by omega, by linarith, by linarith⟩

/-- C6 counterexample: with three interventions already delivered
(`recentNudgeCount = 3`), ample spacing and moderate engagement, the fourth
candidate is NOT suppressed — `recentNudgeCount > 3` lets it through; only
from the fifth candidate on does the count check suppress. -/
theorem c6_counterexample :
    shouldDeliverNudge 3 25000 50 = true ∧ shouldDeliverNudge 4 25000 50 = false := by
  exact ⟨by decide, by decide⟩

/-- C7: engagement scores never leave [0, 100]: a single `updateChildState`
step clamps, hence any number of repeated updates (`iterUpdate`, arbitrary
analysis stream, so in particular all-negative deltas) stays in [0, 100], and
`calculateEngagement` also lands in [0, 100] (its own clamp is [0, 10]). -/
theorem c7_engagement_bounded :
    (∀ st a now, 0 ≤ (updateChildState st a now).engagementScore ∧
        (updateChildState st a now).engagementScore ≤ 100) ∧
    (∀ st (as : Nat → ReasoningAnalysis) now n,
        0 ≤ (iterUpdate st as now (n + 1)).engagementScore ∧
        (iterUpdate st as now (n + 1)).engagementScore ≤ 100) ∧
    (∀ us ts now, 0 ≤ calculateEngagement us ts now ∧
        calculateEngagement us ts now ≤ 100) := by
  have hstep : ∀ st a now, 0 ≤ (updateChildState st a now).engagementScore ∧
      (updateChildState st a now).engagementScore ≤ 100 := by
    intro st a now
    constructor
    · exact le_max_left 0 _
    · exact max_le (by norm_num) (min_le_left _ _)
  refine ⟨hstep, ?_, ?_⟩
  · intro st as now n
    exact hstep (iterUpdate st as now n) (as n) now
  · intro us ts now
    constructor
    · exact le_max_left 0 _
    · exact max_le (by norm_num) (le_trans (min_le_left _ _) (by norm_num))

/-- C8: any message the Content Safety Gate approves is reproduced exactly by
the Delivery Streamer: joining the word payloads of part_004's event sequence
(`start`, one `word` event per fragment in emission order, `done`) with the
single spaces the split removed yields the original message — no loss,
duplication or reordering. -/
theorem c8_stream_roundtrip :
    ∀ (msg : List Char) (review : GuardrailResult),
      (guardContent msg review).safe = true →
      joinWords (streamedWords (streamEventsOf msg)) = msg := by
  intro msg review _
  rw [streamedWords_streamEventsOf]
  exact joinWords_splitWords msg

/-- Witness for C8: `"What do you see?"` passes the gate and survives the
stream round trip. -/
theorem c8_witness :
    (guardContent ("What do you see?".toList) approveReview).safe = true ∧
    joinWords (streamedWords (streamEventsOf ("What do you see?".toList))) =
      "What do you see?".toList := by
  constructor
  · decide
  · exact c8_stream_roundtrip ("What do you see?".toList) approveReview (by decide)

/-- C9 (amended): the route.ts streaming handler rejects any request whose
`sessionId` or `childId` is missing (or empty) with the 400 client-error
response, before any lookup, inference or persistence.  The part_004 handler
performs no such validation: with parent opt-in granted, a missing identifier
only surfaces when a database lookup throws, producing a 500 server-error
response (still with no inference and no persistence) — and with opt-in
denied it answers 200/silent instead of rejecting (see
`c9_counterexample`). -/
theorem c9_validation :
    (∀ req db o now,
        jsFalsyOpt req.sessionId = true ∨ jsFalsyOpt req.childId = true →
        postRoute req db o now = (ResponseR.badRequest, noEffectsR)) ∧
    (∀ req db o now, req.parentOptIn = true → req.childId = none →
        post004 req db o now = (Response004.error500, noEffects004)) ∧
    (∀ req db o now, req.parentOptIn = true → req.sessionId = none →
        post004 req db o now = (Response004.error500, noEffects004)) := by
  refine ⟨?_, ?_, ?_⟩
  · intro req db o now h
    unfold postRoute
    rcases h with h | h <;> simp [h]
  · intro req db o now hp hc
    unfold post004
    rw [hp, hc]
    rfl
  · intro req db o now hp hs
    unfold post004
    rw [hp, hs]
    cases req.childId.bind db.childById <;> rfl

/-- Witness for C9: route.ts answers 400 with no effects to a request without
`sessionId`; part_004 (opt-in granted) answers 500 with no effects to a
request without `childId`. -/
theorem c9_witness :
    postRoute reqNoSessionId dbRVoiceOff idleOraclesR 0 =
      (ResponseR.badRequest, noEffectsR) ∧
    post004 { reqNoChildId with parentOptIn := true } dbChildC1 failOracles 0 =
      (Response004.error500, noEffects004) := by
  constructor
  · exact c9_validation.1 reqNoSessionId dbRVoiceOff idleOraclesR 0 (Or.inl rfl)
  · exact c9_validation.2.1 _ dbChildC1 failOracles 0 rfl rfl

/-- C9 counterexample: part_004 does NOT reject a request missing `childId`
with a client-error response: when the parent opt-in flag is false it answers
the ordinary 200 silent response (and when opt-in is granted, a 500
server-error, not a 4xx) — there is no identifier validation in that
handler. -/
theorem c9_counterexample :
    reqNoChildId.childId = none ∧
    (post004 reqNoChildId dbChildC1 failOracles 0).1 = Response004.silentNoOptIn ∧
    (post004 reqNoChildId dbChildC1 failOracles 0).1 ≠ Response004.error500 := by
  exact ⟨rfl, by decide, by decide⟩

/-- C10: `updateChildState` never changes the child's vocabulary level — the
returned state carries the input's `vocabularyLevel` for every state, analysis
and timestamp. -/
theorem c10_vocab_level_preserved :
    ∀ st a now, (updateChildState st a now).vocabularyLevel = st.vocabularyLevel := by
  intro st a now
  rfl
